import Mathlib

/-!
A verification development for the drone-controller repository
(`unified_drone.py`, `final.py`, `pi_client.py`, `windows_server_api.py`).

Part 1 embeds the QR confirmation gate: the main result-queue loop of
`unified_drone.py` (lines 411-460) and the equivalent loop of `final.py`
(lines 196-237).  The loop pulls `DecodeResult`s from `result_queue`; for
each decoded string `data` it runs

    if data.strip() == VALID_QR_TEXT:
        qr_count += 1
        if qr_count >= QR_CONFIRM_FRAMES:
            detection_complete = True; should_stop = True
            trigger_servo(); send_rtl(); break
    else:
        qr_count = 0

and after the inner loop `if detection_complete: break` leaves the outer
loop.  We model the gate state as the pair (`qr_count`,
`detection_complete`); the two `break`s are modelled by freezing the state
once `detection_complete` is set (no further string of the current result
and no further result is evaluated).  The servo/RTL action steps
themselves are external collaborators and are not modelled.
-/

/-- `VALID_QR_TEXT` from `unified_drone.py` line 38 (same in `final.py`). -/
def VALID_QR_TEXT : String := "SCANNED"

/-- `QR_CONFIRM_FRAMES` from `unified_drone.py` line 39 (`final.py` uses 8;
the lemmas below are proved for an arbitrary target). -/
def QR_CONFIRM_FRAMES : Nat := 2

/-- Python's `str.strip()`: remove whitespace from both ends.  Defined over
the character list so that it reduces in the kernel. -/
def pyStrip (s : String) : String :=
  ⟨((s.data.dropWhile Char.isWhitespace).reverse.dropWhile Char.isWhitespace).reverse⟩

/-- The match test of the gate: `data.strip() == VALID_QR_TEXT`. -/
def matchesQR (data : String) : Bool :=
  pyStrip data == VALID_QR_TEXT

/-- The mutable state of the confirmation gate: the consecutive-match
counter `qr_count` and the write-once flag `detection_complete`. -/
structure GateState where
  qr_count : Nat
  detection_complete : Bool
deriving DecidableEq, Repr

/-- One decoded string evaluated by the gate.  When `detection_complete`
is already set the state is frozen (the source has broken out of both
loops, so no further string is evaluated).  On a match the counter is
incremented and compared against the target (`qr_count >= QR_CONFIRM_FRAMES`
in the source); on a non-match the counter is reset to 0. -/
def processString (target : Nat) (st : GateState) (data : String) : GateState :=
  if st.detection_complete then st
  else if matchesQR data then
    if target ≤ st.qr_count + 1 then ⟨st.qr_count + 1, true⟩
    else ⟨st.qr_count + 1, false⟩
  else ⟨0, false⟩

/-- One `DecodeResult` (its list `decoded_objects` of decoded strings)
evaluated by the gate: the strings are evaluated in order.  The source's
`if decoded_objects:` guard is the empty fold. -/
def processResult (target : Nat) (st : GateState) (decoded_objects : List String) : GateState :=
  decoded_objects.foldl (processString target) st

/-- The whole result-queue loop over a sequence of `DecodeResult`s,
starting from `qr_count = 0`, `detection_complete = False`. -/
def runGate (target : Nat) (results : List (List String)) : GateState :=
  results.foldl (processResult target) ⟨0, false⟩

/-- The gate run over a flat list of decoded strings (the concatenation of
the evaluated results). -/
def gateRun (target : Nat) (l : List String) : GateState :=
  l.foldl (processString target) ⟨0, false⟩

/-- Some suffix of `l` begins with at least `target` consecutive strings
whose stripped value equals `VALID_QR_TEXT` (no intervening non-match). -/
def hasConsecutiveMatches (target : Nat) (l : List String) : Prop :=
  ∃ i, target ≤ ((l.drop i).takeWhile matchesQR).length

lemma processString_frozen (target : Nat) (st : GateState) (data : String)
    (h : st.detection_complete = true) : processString target st data = st := by
  simp [processString, h]

lemma foldl_processString_frozen (target : Nat) :
    ∀ (l : List String) (st : GateState), st.detection_complete = true →
      l.foldl (processString target) st = st := by
  intro l
  induction l with
  | nil => intro st _; rfl
  | cons s rest ih =>
    intro st h
    rw [List.foldl_cons, processString_frozen target st s h]
    exact ih st h

lemma foldl_processResult_frozen (target : Nat) :
    ∀ (rs : List (List String)) (st : GateState), st.detection_complete = true →
      rs.foldl (processResult target) st = st := by
  intro rs
  induction rs with
  | nil => intro st _; rfl
  | cons r rest ih =>
    intro st h
    rw [List.foldl_cons]
    have hr : processResult target st r = st := foldl_processString_frozen target r st h
    rw [hr]
    exact ih st h

/-- Evaluating a stream of results is evaluating the flat stream of their
decoded strings. -/
lemma runGate_eq_gateRun (target : Nat) (rs : List (List String)) :
    runGate target rs = gateRun target rs.flatten := by
  unfold runGate gateRun
  rw [List.foldl_flatten]
  rfl

/-- Main invariant-style characterisation: starting unfired with counter
`c < target`, the fold fires iff either the leading run of matches pushes
the counter to the target, or a run of at least `target` consecutive
matches starts somewhere in the remaining stream. -/
lemma foldl_fires_iff (target : Nat) :
    ∀ (l : List String) (c : Nat), c < target →
      ((l.foldl (processString target) ⟨c, false⟩).detection_complete = true ↔
        (target ≤ c + (l.takeWhile matchesQR).length ∨
          ∃ i, target ≤ ((l.drop i).takeWhile matchesQR).length)) := by
  intro l
  induction l with
  | nil =>
    intro c hc
    constructor
    · intro h; simp at h
    · rintro (h | ⟨i, hi⟩)
      · simp at h; omega
      · simp at hi; omega
  | cons s rest ih =>
    intro c hc
    by_cases hm : matchesQR s
    · by_cases hfire : target ≤ c + 1
      · have hstep : processString target ⟨c, false⟩ s = ⟨c + 1, true⟩ := by
          simp [processString, hm, hfire]
        rw [List.foldl_cons, hstep, foldl_processString_frozen target rest _ rfl]
        have hlen : (rest.takeWhile matchesQR).length + 1 =
            ((s :: rest).takeWhile matchesQR).length := by
          rw [List.takeWhile_cons_of_pos hm]; simp
        constructor
        · intro _
          exact Or.inl (by omega)
        · intro _; rfl
      · have hstep : processString target ⟨c, false⟩ s = ⟨c + 1, false⟩ := by
          simp [processString, hm, hfire]
        rw [List.foldl_cons, hstep, ih (c + 1) (by omega)]
        rw [List.takeWhile_cons_of_pos hm]
        constructor
        · rintro (h | ⟨i, hi⟩)
          · exact Or.inl (by simp; omega)
          · exact Or.inr ⟨i + 1, by simpa [List.drop_succ_cons] using hi⟩
        · rintro (h | ⟨i, hi⟩)
          · exact Or.inl (by simp at h; omega)
          · match i with
            | 0 =>
              rw [List.drop_zero, List.takeWhile_cons_of_pos hm] at hi
              exact Or.inl (by simp at hi; omega)
            | j + 1 =>
              rw [List.drop_succ_cons] at hi
              exact Or.inr ⟨j, hi⟩
    · have hstep : processString target ⟨c, false⟩ s = ⟨0, false⟩ := by
        simp [processString, hm]
      rw [List.foldl_cons, hstep, ih 0 (by omega)]
      rw [List.takeWhile_cons_of_neg hm]
      constructor
      · rintro (h | ⟨i, hi⟩)
        · exact Or.inr ⟨1, by simpa [List.drop_succ_cons] using h⟩
        · exact Or.inr ⟨i + 1, by simpa [List.drop_succ_cons] using hi⟩
      · rintro (h | ⟨i, hi⟩)
        · simp at h; omega
        · match i with
          | 0 =>
            rw [List.drop_zero, List.takeWhile_cons_of_neg hm] at hi
            simp at hi; omega
          | j + 1 =>
            rw [List.drop_succ_cons] at hi
            exact Or.inr ⟨j, hi⟩

/-- The flat-stream gate fires iff the stream has `target` consecutive
matches somewhere. -/
lemma gateRun_fires_iff (target : Nat) (ht : 1 ≤ target) (l : List String) :
    (gateRun target l).detection_complete = true ↔ hasConsecutiveMatches target l := by
  unfold gateRun hasConsecutiveMatches
  rw [foldl_fires_iff target l 0 (by omega)]
  constructor
  · rintro (h | hex)
    · exact ⟨0, by simpa using h⟩
    · exact hex
  · intro hex; exact Or.inr hex

/-- Counter invariant preservation: if the state is unfired with counter
below the target, or fired with counter exactly the target, folding any
strings preserves that disjunction. -/
lemma foldl_gate_invariant (target : Nat) :
    ∀ (l : List String) (st : GateState),
      (st.detection_complete = false → st.qr_count < target) →
      (st.detection_complete = true → st.qr_count = target) →
      (((l.foldl (processString target) st).detection_complete = false →
          (l.foldl (processString target) st).qr_count < target) ∧
        ((l.foldl (processString target) st).detection_complete = true →
          (l.foldl (processString target) st).qr_count = target)) := by
  intro l
  induction l with
  | nil => intro st h1 h2; exact ⟨h1, h2⟩
  | cons s rest ih =>
    intro st h1 h2
    rw [List.foldl_cons]
    by_cases hd : st.detection_complete = true
    · rw [processString_frozen target st s hd]
      exact ih st h1 h2
    · have hd' : st.detection_complete = false := by
        cases hx : st.detection_complete
        · rfl
        · exact absurd hx hd
      have hc : st.qr_count < target := h1 hd'
      by_cases hm : matchesQR s
      · by_cases hfire : target ≤ st.qr_count + 1
        · have hstep : processString target st s = ⟨st.qr_count + 1, true⟩ := by
            simp [processString, hd', hm, hfire]
          rw [hstep]
          exact ih _ (by intro h; simp at h) (by intro _; simp; omega)
        · have hstep : processString target st s = ⟨st.qr_count + 1, false⟩ := by
            simp [processString, hd', hm, hfire]
          rw [hstep]
          exact ih _ (by intro _; simp; omega) (by intro h; simp at h)
      · have hstep : processString target st s = ⟨0, false⟩ := by
          simp [processString, hd', hm]
        rw [hstep]
        exact ih _ (by intro _; simp; omega) (by intro h; simp at h)

/-- C1: for every sequence of `DecodeResult`s fed to the main result-queue
loop, `detection_complete` (with the servo/RTL invocation) becomes true iff
some suffix of the evaluated decoded strings begins with at least
`QR_CONFIRM_FRAMES` consecutive strings whose stripped value equals
`VALID_QR_TEXT`, with no intervening non-match; once set, the gate state is
frozen under any further results, so it becomes true at most once.  With
target 2, the stream `[["SCANNED"], ["SCANNED"]]` fires after the second
result while `[["SCANNED"], ["WRONG"], ["SCANNED"]]` does not fire. -/
theorem confirmationGate_fired_iff :
    (∀ rs : List (List String),
        (runGate QR_CONFIRM_FRAMES rs).detection_complete = true ↔
          hasConsecutiveMatches QR_CONFIRM_FRAMES rs.flatten) ∧
    (∀ rs rs' : List (List String),
        (runGate QR_CONFIRM_FRAMES rs).detection_complete = true →
          runGate QR_CONFIRM_FRAMES (rs ++ rs') = runGate QR_CONFIRM_FRAMES rs) ∧
    (runGate QR_CONFIRM_FRAMES [["SCANNED"], ["SCANNED"]]).detection_complete = true ∧
    (runGate QR_CONFIRM_FRAMES [["SCANNED"], ["WRONG"], ["SCANNED"]]).detection_complete = false := by
  refine ⟨?_, ?_, by decide, by decide⟩
  · intro rs
    rw [runGate_eq_gateRun]
    exact gateRun_fires_iff QR_CONFIRM_FRAMES (by decide) rs.flatten
  · intro rs rs' h
    unfold runGate
    rw [List.foldl_append]
    exact foldl_processResult_frozen QR_CONFIRM_FRAMES rs' _ h

/-- Witness for C1: applies the once-only (frozen-state) part at the
concrete firing stream, appended with a further result. -/
theorem confirmationGate_fired_iff_witness :
    runGate QR_CONFIRM_FRAMES ([["SCANNED"], ["SCANNED"]] ++ [["WRONG"]]) =
      runGate QR_CONFIRM_FRAMES [["SCANNED"], ["SCANNED"]] :=
  confirmationGate_fired_iff.2.1 [["SCANNED"], ["SCANNED"]] [["WRONG"]] (by decide)

/-- C8: a `DecodeResult` whose decoded-string list is empty leaves the gate
state (counter and flag) unchanged — the source's `if decoded_objects:`
guard skips the whole per-string loop — so an empty result inserted
anywhere in the stream is invisible to the gate. -/
theorem emptyResult_leaves_gate_unchanged :
    (∀ (target : Nat) (st : GateState), processResult target st [] = st) ∧
    (∀ (target : Nat) (rs₁ rs₂ : List (List String)),
        runGate target (rs₁ ++ [] :: rs₂) = runGate target (rs₁ ++ rs₂)) := by
  constructor
  · intro target st; rfl
  · intro target rs₁ rs₂
    unfold runGate
    rw [List.foldl_append, List.foldl_append, List.foldl_cons]
    rfl

/-- C9: with a positive target, at every point of the gate's execution
(i.e. after evaluating any flat prefix `l` of decoded strings) the counter
`qr_count` never exceeds the target; when the gate has fired the counter is
exactly the target (it fired the instant the counter reached it); and once
fired no further string changes the state, so no increment is ever applied
on top of a counter already at the target. -/
theorem qr_count_never_exceeds_target :
    ∀ (target : Nat) (l : List String), 1 ≤ target →
      (gateRun target l).qr_count ≤ target ∧
      ((gateRun target l).detection_complete = true →
        (gateRun target l).qr_count = target) ∧
      (∀ (st : GateState) (s : String), st.detection_complete = true →
        processString target st s = st) := by
  intro target l ht
  have hinv := foldl_gate_invariant target l ⟨0, false⟩
    (by intro _; simpa using ht) (by intro h; simp at h)
  refine ⟨?_, ?_, ?_⟩
  · cases hx : (gateRun target l).detection_complete
    · have := hinv.1 (by simpa [gateRun] using hx)
      simpa [gateRun] using Nat.le_of_lt (by simpa [gateRun] using this)
    · have := hinv.2 (by simpa [gateRun] using hx)
      simpa [gateRun] using Nat.le_of_eq (by simpa [gateRun] using this)
  · intro hx
    exact hinv.2 (by simpa [gateRun] using hx)
  · intro st s h
    exact processString_frozen target st s h

/-- Witness for C9: the bound and the fired-exactly-at-target property
evaluated at target 2 on a concrete stream that fires. -/
theorem qr_count_never_exceeds_target_witness :
    (gateRun 2 ["SCANNED", "SCANNED", "SCANNED"]).qr_count ≤ 2 ∧
      (gateRun 2 ["SCANNED", "SCANNED", "SCANNED"]).qr_count = 2 :=
  ⟨(qr_count_never_exceeds_target 2 ["SCANNED", "SCANNED", "SCANNED"] (by decide)).1,
    (qr_count_never_exceeds_target 2 ["SCANNED", "SCANNED", "SCANNED"] (by decide)).2.1
      (by decide)⟩

/-!
Part 2 embeds the detection worker `detect_qr_codes` of `unified_drone.py`
(lines 261-286; `final.py` lines 146-167 is structurally identical).  The
worker body is

    while not should_stop:
        try:
            frame_id, frame = frame_queue.get(timeout=1)
        except:
            continue
        display_frame = frame.copy()
        decoded_objects = decode(frame)
        decoded_texts = [obj.data.decode('utf-8') for obj in decoded_objects]
        result = {'frame_id': frame_id, 'frame': display_frame,
                  'decoded_objects': decoded_texts}
        result_queue.put(result)

The `try/except` wraps only the queue `get`; the external `decode` call is
NOT inside any exception handler, so a decode exception propagates out of
the `while` body and terminates the worker thread.  We model the decoder
black box as a fallible function into `Except` and the fact that nothing
catches its failure by propagating the error through the step. -/

/-- The payload a worker puts on `result_queue`. -/
structure DecodeResult (Frame : Type) where
  frame_id : Nat
  frame : Frame
  decoded_objects : List String
deriving DecidableEq, Repr

/-- One iteration of `detect_qr_codes` after a successful `frame_queue.get`:
calls `decode` (uncaught — an exception is propagated, not handled) and
otherwise publishes the `DecodeResult` unconditionally, even when the
decoded list is empty. -/
def detect_qr_codes_step {Frame ε : Type} (decode : Frame → Except ε (List String))
    (frame_id : Nat) (frame : Frame) : Except ε (DecodeResult Frame) :=
  match decode frame with
  | .error e => .error e
  | .ok decoded_texts =>
      .ok { frame_id := frame_id, frame := frame, decoded_objects := decoded_texts }

/-- The worker loop over the frames it pulls: the list of published
results, together with the uncaught exception (if any) that terminated the
thread.  After an uncaught decode exception no later frame is processed. -/
def detect_qr_codes_loop {Frame ε : Type} (decode : Frame → Except ε (List String)) :
    List (Nat × Frame) → List (DecodeResult Frame) × Option ε
  | [] => ([], none)
  | (frame_id, frame) :: rest =>
    match detect_qr_codes_step decode frame_id frame with
    | .error e => ([], some e)
    | .ok r =>
      let (more, err) := detect_qr_codes_loop decode rest
      (r :: more, err)

/-- C4 counterexample: the claim says a decode exception is treated as "no
codes found" — a `DecodeResult` with an empty list is published and the
loop continues.  In the source the decode call sits outside the worker's
`try/except`, so with a decoder that always raises, the step propagates the
error (it does not publish `.ok` with an empty list), and the loop
terminates at the first frame: nothing at all is published and the second
frame is never processed. -/
theorem decode_exception_claim_counterexample :
    detect_qr_codes_step (fun _ : Nat => (Except.error () : Except Unit (List String))) 1 0 =
      Except.error () ∧
    detect_qr_codes_loop (fun _ : Nat => (Except.error () : Except Unit (List String)))
      [(1, 0), (2, 1)] = ([], some ()) := by
  constructor <;> rfl

/-- C4 amended: when `decode` returns normally the worker publishes a
`DecodeResult` unconditionally (even an empty one) and processes every
pulled frame; but when `decode` raises, the exception is not caught: no
result (empty or otherwise) is published for that frame and the worker
loop terminates. -/
theorem decode_exception_propagates :
    ∀ (Frame ε : Type) (decode : Frame → Except ε (List String))
      (frame_id : Nat) (frame : Frame),
      (∀ e : ε, decode frame = .error e → detect_qr_codes_step decode frame_id frame = .error e) ∧
      (decode frame = .ok [] →
        detect_qr_codes_step decode frame_id frame =
          .ok { frame_id := frame_id, frame := frame, decoded_objects := [] }) ∧
      (∀ frames : List (Nat × Frame),
        (∀ p ∈ frames, (decode p.2).isOk = true) →
          ((detect_qr_codes_loop decode frames).2 = none ∧
            (detect_qr_codes_loop decode frames).1.length = frames.length)) := by
  intro Frame ε decode frame_id frame
  refine ⟨?_, ?_, ?_⟩
  · intro e he; simp [detect_qr_codes_step, he]
  · intro he; simp [detect_qr_codes_step, he]
  · intro frames
    induction frames with
    | nil => intro _; exact ⟨rfl, rfl⟩
    | cons p rest ih =>
      intro hall
      have hp := hall p (List.mem_cons_self p rest)
      have hrest := ih (fun q hq => hall q (List.mem_cons_of_mem p hq))
      obtain ⟨fid, f⟩ := p
      cases hd : decode f with
      | error e => rw [hd] at hp; simp [Except.isOk, Except.toBool] at hp
      | ok texts =>
        simp only [detect_qr_codes_loop, detect_qr_codes_step, hd]
        exact ⟨hrest.1, by simp [hrest.2]⟩

/-- Witness for C4's amended theorem: a decoder returning an empty list on
frame 0 and failing on frame 2 — the empty decode is published; separately
the error branch is exercised. -/
theorem decode_exception_propagates_witness :
    detect_qr_codes_step (fun n : Nat => if n = 2 then (Except.error () : Except Unit (List String)) else .ok []) 7 0 =
      .ok { frame_id := 7, frame := 0, decoded_objects := [] } ∧
    detect_qr_codes_step (fun n : Nat => if n = 2 then (Except.error () : Except Unit (List String)) else .ok []) 8 2 =
      .error () ∧
    (detect_qr_codes_loop (fun n : Nat => if n = 2 then (Except.error () : Except Unit (List String)) else .ok [])
        [(7, 0), (9, 1)]).2 = none := by
  refine ⟨?_, ?_, ?_⟩
  · exact (decode_exception_propagates Nat Unit _ 7 0).2.1 rfl
  · exact (decode_exception_propagates Nat Unit _ 8 2).1 () rfl
  · exact ((decode_exception_propagates Nat Unit _ 0 0).2.2 [(7, 0), (9, 1)] (by decide)).1

/-!
Part 3 embeds `capture_frames` of `unified_drone.py` (lines 229-257).  The
body, per successfully captured frame, is

    frame_id += 1
    frames_processed = frame_id
    with frame_lock:
        current_frame = frame.copy()
    try:
        frame_queue.put((frame_id, frame.copy()), timeout=0.1)
    except:
        pass  # Skip frame if queue is full
    if SEND_TO_WINDOWS:
        try:
            windows_queue.put((frame_id, frame.copy()), timeout=0.1)
        except:
            pass  # Skip frame if queue is full

We model a `Queue(maxsize=n).put(x, timeout=...)` that times out as the
queue being full for the whole timeout window: the enqueue succeeds iff
the queue has free capacity, and on timeout the bare `except: pass` drops
the frame for that queue.  The state below carries every piece of mutable
shared state the capture loop can see (including the counters
`frames_sent_to_windows` and `windows_send_errors`, which belong to the
uplink thread and are never touched here). -/

/-- `FRAME_QUEUE_SIZE` from `unified_drone.py` line 48. -/
def FRAME_QUEUE_SIZE : Nat := 10

/-- The `maxsize=5` of `windows_queue` (`unified_drone.py` line 156). -/
def WINDOWS_QUEUE_SIZE : Nat := 5

/-- `SEND_TO_WINDOWS` from `unified_drone.py` line 64. -/
def SEND_TO_WINDOWS : Bool := true

/-- The mutable shared state visible to the capture loop. -/
structure PipelineState (Frame : Type) where
  frame_queue : List (Nat × Frame)
  windows_queue : List (Nat × Frame)
  current_frame : Option Frame
  frames_processed : Nat
  frames_sent_to_windows : Nat
  windows_send_errors : Nat
deriving DecidableEq, Repr

/-- `Queue(maxsize).put(x, timeout=0.1)` under `try/except: pass`: the item
is appended iff the queue has room; a timeout (full queue) silently drops
it. -/
def put_with_timeout {α : Type} (maxsize : Nat) (q : List α) (x : α) : List α :=
  if q.length < maxsize then q ++ [x] else q

/-- One iteration of `capture_frames` for a successfully captured frame. -/
def capture_iteration {Frame : Type} (st : PipelineState Frame) (frame : Frame) :
    PipelineState Frame :=
  let frame_id := st.frames_processed + 1
  { st with
    frames_processed := frame_id
    current_frame := some frame
    frame_queue := put_with_timeout FRAME_QUEUE_SIZE st.frame_queue (frame_id, frame)
    windows_queue :=
      if SEND_TO_WINDOWS then
        put_with_timeout WINDOWS_QUEUE_SIZE st.windows_queue (frame_id, frame)
      else st.windows_queue }

/-- C5 counterexample: the claim says each drop is "silently counted: that
queue's drop counter is incremented by exactly 1".  The capture loop's
state holds no drop counter at all: starting from two states that agree on
every counter and differ only in that `frame_queue` is full in one and
empty in the other, the iteration drops the frame in the first run (the
queue is left unchanged) and enqueues it in the second, yet the two
post-states agree on every counter field — nothing in the state records the
drop, so no counter was incremented because of it. -/
theorem drop_counter_claim_counterexample :
    (capture_iteration
        { frame_queue := (List.range 10).map (fun i => (i, ()))
          windows_queue := []
          current_frame := none
          frames_processed := 20
          frames_sent_to_windows := 3
          windows_send_errors := 4 } ()).frame_queue =
      (List.range 10).map (fun i => (i, ())) ∧
    (capture_iteration
        { frame_queue := []
          windows_queue := []
          current_frame := none
          frames_processed := 20
          frames_sent_to_windows := 3
          windows_send_errors := 4 } ()).frame_queue ≠
      ([] : List (Nat × Unit)) ∧
    (capture_iteration
        { frame_queue := (List.range 10).map (fun i => (i, ()))
          windows_queue := []
          current_frame := none
          frames_processed := 20
          frames_sent_to_windows := 3
          windows_send_errors := 4 } ()).frames_processed =
      (capture_iteration
        { frame_queue := []
          windows_queue := []
          current_frame := none
          frames_processed := 20
          frames_sent_to_windows := 3
          windows_send_errors := 4 } ()).frames_processed ∧
    (capture_iteration
        { frame_queue := (List.range 10).map (fun i => (i, ()))
          windows_queue := []
          current_frame := none
          frames_processed := 20
          frames_sent_to_windows := 3
          windows_send_errors := 4 } ()).frames_sent_to_windows =
      (capture_iteration
        { frame_queue := []
          windows_queue := []
          current_frame := none
          frames_processed := 20
          frames_sent_to_windows := 3
          windows_send_errors := 4 } ()).frames_sent_to_windows ∧
    (capture_iteration
        { frame_queue := (List.range 10).map (fun i => (i, ()))
          windows_queue := []
          current_frame := none
          frames_processed := 20
          frames_sent_to_windows := 3
          windows_send_errors := 4 } ()).windows_send_errors =
      (capture_iteration
        { frame_queue := []
          windows_queue := []
          current_frame := none
          frames_processed := 20
          frames_sent_to_windows := 3
          windows_send_errors := 4 } ()).windows_send_errors := by
  refine ⟨by decide, by decide, by decide, by decide, by decide⟩

/-- C5 amended: an enqueue that times out because its queue is full drops
the frame for that queue only, and each of the two `try/except: pass`
blocks of the capture loop behaves this way independently: when
`frame_queue` is full its enqueue drops while the windows queue (when it
has room) still receives the frame, and when `windows_queue` is full its
enqueue drops while `frame_queue` (when it has room) still receives the
frame.  In every iteration — drops included — the shared preview frame is
updated, `frames_processed` advances, and no error is propagated (the
iteration is a total function and the loop proceeds to the next frame);
the drop is silently ignored: no counter in the state changes because of
it. -/
theorem drop_is_queue_local_and_uncounted :
    ∀ (Frame : Type) (st : PipelineState Frame) (frame : Frame),
      (FRAME_QUEUE_SIZE ≤ st.frame_queue.length →
        (capture_iteration st frame).frame_queue = st.frame_queue ∧
        (st.windows_queue.length < WINDOWS_QUEUE_SIZE →
          (capture_iteration st frame).windows_queue =
            st.windows_queue ++ [(st.frames_processed + 1, frame)])) ∧
      (WINDOWS_QUEUE_SIZE ≤ st.windows_queue.length →
        (capture_iteration st frame).windows_queue = st.windows_queue ∧
        (st.frame_queue.length < FRAME_QUEUE_SIZE →
          (capture_iteration st frame).frame_queue =
            st.frame_queue ++ [(st.frames_processed + 1, frame)])) ∧
      (capture_iteration st frame).current_frame = some frame ∧
      (capture_iteration st frame).frames_processed = st.frames_processed + 1 ∧
      (capture_iteration st frame).frames_sent_to_windows = st.frames_sent_to_windows ∧
      (capture_iteration st frame).windows_send_errors = st.windows_send_errors := by
  intro Frame st frame
  refine ⟨?_, ?_, rfl, rfl, rfl, rfl⟩
  · intro hfull
    constructor
    · simp [capture_iteration, put_with_timeout, Nat.not_lt.mpr hfull]
    · intro hroom
      simp [capture_iteration, put_with_timeout, SEND_TO_WINDOWS, hroom]
  · intro hwfull
    constructor
    · simp [capture_iteration, put_with_timeout, SEND_TO_WINDOWS, Nat.not_lt.mpr hwfull]
    · intro hroom
      simp [capture_iteration, put_with_timeout, hroom]

/-- Witness for C5's amended theorem: a full frame queue drops for the
frame queue only, and a full windows queue drops for the windows queue
only while the frame queue still receives the frame. -/
theorem drop_is_queue_local_and_uncounted_witness :
    (capture_iteration
        { frame_queue := (List.range 10).map (fun i => (i, ()))
          windows_queue := []
          current_frame := none
          frames_processed := 20
          frames_sent_to_windows := 3
          windows_send_errors := 4 } ()).frame_queue =
      (List.range 10).map (fun i => (i, ())) ∧
    (capture_iteration
        { frame_queue := []
          windows_queue := (List.range 5).map (fun i => (i, ()))
          current_frame := none
          frames_processed := 20
          frames_sent_to_windows := 3
          windows_send_errors := 4 } ()).windows_queue =
      (List.range 5).map (fun i => (i, ())) ∧
    (capture_iteration
        { frame_queue := []
          windows_queue := (List.range 5).map (fun i => (i, ()))
          current_frame := none
          frames_processed := 20
          frames_sent_to_windows := 3
          windows_send_errors := 4 } ()).frame_queue = [(21, ())] :=
  ⟨((drop_is_queue_local_and_uncounted Unit
      { frame_queue := (List.range 10).map (fun i => (i, ()))
        windows_queue := []
        current_frame := none
        frames_processed := 20
        frames_sent_to_windows := 3
        windows_send_errors := 4 } ()).1 (by decide)).1,
    ((drop_is_queue_local_and_uncounted Unit
      { frame_queue := []
        windows_queue := (List.range 5).map (fun i => (i, ()))
        current_frame := none
        frames_processed := 20
        frames_sent_to_windows := 3
        windows_send_errors := 4 } ()).2.1 (by decide)).1,
    ((drop_is_queue_local_and_uncounted Unit
      { frame_queue := []
        windows_queue := (List.range 5).map (fun i => (i, ()))
        current_frame := none
        frames_processed := 20
        frames_sent_to_windows := 3
        windows_send_errors := 4 } ()).2.1 (by decide)).2 (by decide)⟩

/-!
Part 4 embeds the job manager of `windows_server_api.py`: the `jobs` dict
with `update_job_status` (lines 97-105), the supervisor `run_realityscan`
(lines 123-274) and the submission endpoint `start_processing` (lines
397-457).  Statuses are the literal strings of the source.  Timestamps
(`datetime.now().isoformat()`) are abstract `Nat` tokens.  Logging is a
no-op.  The fallible operations of the supervisor are modelled explicitly:
`subprocess.Popen` may raise (caught by the outer `except` as `error`),
`process.communicate(timeout=3600)` may raise `TimeoutExpired`, the
filesystem postconditions are given by an `RSFilesystem` snapshot, and
`package_results` (which catches its own exceptions) either returns a zip
path or `None`. -/

/-- One job record, with the fields created by `start_processing`. -/
structure Job where
  job_id : String
  project_id : String
  status : String
  progress : Nat
  message : String
  image_count : Nat
  quality : String
  created_at : Nat
  updated_at : Nat
  result_path : Option String
deriving DecidableEq, Repr

/-- The `jobs` dict, as an association list (fresh uuid keys are consed at
the front; `List.lookup` takes the first match, like a dict). -/
def JobsMap : Type := List (String × Job)

/-- The field overwrite `update_job_status` performs on a present record. -/
def applyJobUpdateFields (j : Job) (status : String) (progress : Nat) (message : String)
    (now : Nat) : Job :=
  { j with status := status, progress := progress, message := message, updated_at := now }

/-- `update_job_status` (lines 97-105): under the lock, if `job_id in jobs`
overwrite status/progress/message/updated_at of that record; otherwise do
nothing. -/
def update_job_status (jobs : JobsMap) (job_id : String) (status : String) (progress : Nat)
    (message : String) (now : Nat) : JobsMap :=
  if (List.lookup job_id jobs).isSome then
    jobs.map (fun p => if p.1 == job_id then (p.1, applyJobUpdateFields p.2 status progress message now) else p)
  else jobs

/-- One call to `update_job_status`, as recorded data: the status, progress
and message arguments passed by the supervisor. -/
structure JobUpdate where
  status : String
  progress : Nat
  message : String
deriving DecidableEq, Repr

/-- The filesystem snapshot the supervisor's postcondition checks observe
after the subprocess finished: `os.path.exists(project_file)`, the
`os.path.getsize` result (read and logged by the source, line 234, but
never branched on), `os.path.exists(project_data_folder)` and the number
of `sfm*.dat` files found by the glob. -/
structure RSFilesystem where
  project_file_exists : Bool
  project_file_size : Nat
  project_data_folder_exists : Bool
  sfm_dat_count : Nat
deriving DecidableEq, Repr

/-- Result of `process.communicate(timeout=3600)`: either raises
`TimeoutExpired` or returns with the process exit code. -/
inductive CommunicateResult where
  | timeout
  | completed (returncode : Int)
deriving DecidableEq, Repr

/-- `subprocess.Popen` either starts the process or raises — the raise is
caught only by `run_realityscan`'s outermost `except Exception`, which
records status `error` with the exception text. -/
inductive PopenOutcome where
  | started (result : CommunicateResult)
  | raised (msg : String)
deriving DecidableEq, Repr

/-- The environment of one `run_realityscan` execution. -/
structure RunEnv where
  popen : PopenOutcome
  fs : RSFilesystem
  package_result : Option String
deriving DecidableEq, Repr

/-- Observable outcome of one `run_realityscan` execution: the ordered
sequence of `update_job_status` calls it makes, whether `process.kill()`
was invoked, whether `package_results` was called, and the
`result_path` stored on success. -/
structure RunOutcome where
  updates : List JobUpdate
  killed : Bool
  packaging_called : Bool
  result_path : Option String
deriving DecidableEq, Repr

/-- `run_realityscan` (lines 123-274), as the sequence of updates it
performs.  The branch structure and every status/progress/message literal
are taken verbatim from the source; note that after the project-file
existence check the file size is only logged — the source never compares
it with anything before moving on to the data-folder check. -/
def run_realityscan (env : RunEnv) : RunOutcome :=
  let u10 : JobUpdate := ⟨"processing", 10, "Preparing RealityScan..."⟩
  let u20 : JobUpdate := ⟨"processing", 20, "Running feature detection..."⟩
  match env.popen with
  | .raised msg => ⟨[u10, u20, ⟨"error", 0, msg⟩], false, false, none⟩
  | .started result =>
    let u40 : JobUpdate := ⟨"processing", 40, "Aligning images..."⟩
    match result with
    | .timeout =>
        ⟨[u10, u20, u40, ⟨"failed", 0, "Processing timeout (1 hour)"⟩], true, false, none⟩
    | .completed returncode =>
      if returncode ≠ 0 then
        ⟨[u10, u20, u40,
            ⟨"failed", 0, s!"RealityScan failed with return code {returncode}"⟩],
          false, false, none⟩
      else if env.fs.project_file_exists = false then
        ⟨[u10, u20, u40, ⟨"failed", 0, "RealityScan did not create project file"⟩],
          false, false, none⟩
      else if env.fs.project_data_folder_exists = false then
        ⟨[u10, u20, u40, ⟨"failed", 0, "Alignment failed - no point cloud generated"⟩],
          false, false, none⟩
      else if env.fs.sfm_dat_count = 0 then
        ⟨[u10, u20, u40, ⟨"failed", 0, "Alignment failed - insufficient feature matches"⟩],
          false, false, none⟩
      else
        let u80 : JobUpdate := ⟨"processing", 80, "Creating output package..."⟩
        match env.package_result with
        | some zip =>
            ⟨[u10, u20, u40, u80,
                ⟨"completed", 100, "Processing complete - 3D mesh ready for download"⟩],
              false, true, some zip⟩
        | none =>
            ⟨[u10, u20, u40, u80, ⟨"failed", 80, "Failed to package results"⟩],
              false, true, none⟩

/-- A status string is terminal: `completed`, `failed` or `error`. -/
def terminalStatus (s : String) : Bool :=
  s == "completed" || s == "failed" || s == "error"

/-- The job record after a sequence of `update_job_status` calls on it. -/
def applyJobUpdates (now : Nat) (j : Job) (us : List JobUpdate) : Job :=
  us.foldl (fun j u => applyJobUpdateFields j u.status u.progress u.message now) j

lemma applyJobUpdates_status (now : Nat) :
    ∀ (us : List JobUpdate) (j : Job),
      (applyJobUpdates now j us).status = (us.map JobUpdate.status).getLastD j.status := by
  intro us
  induction us with
  | nil => intro j; rfl
  | cons u rest ih =>
    intro j
    show (applyJobUpdates now (applyJobUpdateFields j u.status u.progress u.message now) rest).status = _
    rw [ih, List.map_cons, List.getLastD_cons]
    rfl

lemma getLastD_not_terminal :
    ∀ (l : List String) (d : String), (∀ s ∈ l, terminalStatus s = false) →
      terminalStatus d = false → terminalStatus (l.getLastD d) = false := by
  intro l
  induction l with
  | nil => intro d _ hd; exact hd
  | cons a l ih =>
    intro d h hd
    rw [List.getLastD_cons]
    exact ih a (fun s hs => h s (List.mem_cons_of_mem a hs)) (h a (List.mem_cons_self a l))

/-- Shape of every possible `run_realityscan` update sequence: all updates
before the last have status `processing`, and the last status is terminal. -/
lemma run_realityscan_trace_shape (env : RunEnv) :
    (run_realityscan env).updates.dropLast.all (fun u => u.status == "processing") = true ∧
      terminalStatus (((run_realityscan env).updates.map JobUpdate.status).getLastD "queued") = true := by
  obtain ⟨popen, fs, pack⟩ := env
  cases popen with
  | raised msg => exact ⟨rfl, rfl⟩
  | started result =>
    cases result with
    | timeout => exact ⟨rfl, rfl⟩
    | completed returncode =>
      by_cases hrc : returncode = 0
      · subst hrc
        obtain ⟨pf, sz, pdf, sfm⟩ := fs
        cases pf <;> cases pdf <;> rcases sfm with _ | n <;> rcases pack with _ | z <;>
          exact ⟨rfl, rfl⟩
      · simp only [run_realityscan, if_pos hrc]
        exact ⟨rfl, rfl⟩

/-- Once a sequence of updates whose non-final elements are all
non-terminal has driven a non-terminal job to a terminal status, the
consumed prefix must already be the whole sequence. -/
lemma terminal_forces_rest_nil (now : Nat) (j : Job) (us₁ us₂ : List JobUpdate)
    (hinit : terminalStatus j.status = false)
    (hpre : ∀ u ∈ (us₁ ++ us₂).dropLast, terminalStatus u.status = false)
    (hterm : terminalStatus (applyJobUpdates now j us₁).status = true) :
    us₂ = [] := by
  by_contra hne
  have hd : (us₁ ++ us₂).dropLast = us₁ ++ us₂.dropLast :=
    List.dropLast_append_of_ne_nil us₁ hne
  have hall : ∀ u ∈ us₁, terminalStatus u.status = false := by
    intro u hu
    apply hpre
    rw [hd]
    exact List.mem_append_left _ hu
  rw [applyJobUpdates_status] at hterm
  have hfalse : terminalStatus ((us₁.map JobUpdate.status).getLastD j.status) = false := by
    apply getLastD_not_terminal
    · intro s hs
      obtain ⟨u, hu, rfl⟩ := List.mem_map.mp hs
      exact hall u hu
    · exact hinit
  rw [hfalse] at hterm
  cases hterm

/-- C3: for every environment a supervising thread can run in, the job
follows `queued → processing → {completed | failed | error}`: every
non-final `update_job_status` call has status `processing`, the final
status of the run is terminal, and once the job's status is terminal after
any prefix of the supervisor's update sequence, applying the remaining
updates of that sequence changes nothing (terminal states are final). -/
theorem job_status_terminal_is_final :
    ∀ env : RunEnv,
      (∀ u ∈ (run_realityscan env).updates.dropLast, u.status = "processing") ∧
      (∀ (now : Nat) (j : Job), j.status = "queued" →
        terminalStatus (applyJobUpdates now j (run_realityscan env).updates).status = true) ∧
      (∀ (now : Nat) (j : Job) (us₁ us₂ : List JobUpdate),
        j.status = "queued" →
        (run_realityscan env).updates = us₁ ++ us₂ →
        terminalStatus (applyJobUpdates now j us₁).status = true →
        applyJobUpdates now j (us₁ ++ us₂) = applyJobUpdates now j us₁) := by
  intro env
  have hshape := run_realityscan_trace_shape env
  have hpre : ∀ u ∈ (run_realityscan env).updates.dropLast, u.status = "processing" := by
    intro u hu
    have := List.all_eq_true.mp hshape.1 u hu
    exact eq_of_beq this
  refine ⟨hpre, ?_, ?_⟩
  · intro now j hj
    rw [applyJobUpdates_status, hj]
    exact hshape.2
  · intro now j us₁ us₂ hj hsplit hterm
    have hinit : terminalStatus j.status = false := by rw [hj]; rfl
    have hnil : us₂ = [] := by
      apply terminal_forces_rest_nil now j us₁ us₂ hinit _ hterm
      intro u hu
      have := hpre u (by rw [hsplit]; exact hu)
      rw [this]
      rfl
    rw [hnil, List.append_nil]

/-- A concrete queued job record, as created by `start_processing`. -/
def sampleJob : Job :=
  { job_id := "job-1", project_id := "proj-1", status := "queued", progress := 0,
    message := "Job queued", image_count := 3, quality := "high",
    created_at := 0, updated_at := 0, result_path := none }

/-- Witness for C3: the stability part applied at a concrete timed-out run,
with the whole update sequence as the consumed prefix. -/
theorem job_status_terminal_is_final_witness :
    applyJobUpdates 1 sampleJob
        ((run_realityscan ⟨.started .timeout, ⟨true, 1, true, 1⟩, none⟩).updates ++ []) =
      applyJobUpdates 1 sampleJob
        (run_realityscan ⟨.started .timeout, ⟨true, 1, true, 1⟩, none⟩).updates :=
  (job_status_terminal_is_final ⟨.started .timeout, ⟨true, 1, true, 1⟩, none⟩).2.2 1 sampleJob
    (run_realityscan ⟨.started .timeout, ⟨true, 1, true, 1⟩, none⟩).updates [] rfl
    (by rw [List.append_nil]) (by decide)

/-- C7: whenever `process.communicate(timeout=3600)` raises
`TimeoutExpired` (the subprocess exceeded the one-hour wait ceiling), the
supervisor kills the subprocess (`killed = true`: `process.kill()` runs, so
the subprocess is no longer running afterward) and its last status update
sets `failed` with the timeout-specific message; the update sequence stops
there — no postcondition check is reached and `package_results` is never
called. -/
theorem supervise_timeout_kills :
    ∀ env : RunEnv, env.popen = .started .timeout →
      run_realityscan env =
        { updates := [⟨"processing", 10, "Preparing RealityScan..."⟩,
            ⟨"processing", 20, "Running feature detection..."⟩,
            ⟨"processing", 40, "Aligning images..."⟩,
            ⟨"failed", 0, "Processing timeout (1 hour)"⟩],
          killed := true, packaging_called := false, result_path := none } := by
  intro env h
  obtain ⟨popen, fs, pack⟩ := env
  simp only at h
  subst h
  rfl

/-- Witness for C7 at a concrete environment whose subprocess times out. -/
theorem supervise_timeout_kills_witness :
    run_realityscan ⟨.started .timeout, ⟨true, 7, true, 2⟩, some "z.zip"⟩ =
      { updates := [⟨"processing", 10, "Preparing RealityScan..."⟩,
          ⟨"processing", 20, "Running feature detection..."⟩,
          ⟨"processing", 40, "Aligning images..."⟩,
          ⟨"failed", 0, "Processing timeout (1 hour)"⟩],
        killed := true, packaging_called := false, result_path := none } :=
  supervise_timeout_kills ⟨.started .timeout, ⟨true, 7, true, 2⟩, some "z.zip"⟩ rfl

/-- C2 (code bug): the supervisor checks, in order, that the project file
exists, that the project data folder exists (`no point cloud` message,
before) and that some `sfm*.dat` file exists (`insufficient feature
matches` message, after) — but the claimed "project file is non-empty"
verification does not exist: the source (line 233-235) computes
`os.path.getsize(project_file)` under the comment "Verify project file has
content" and only logs it.  On the failing input below the subprocess
exits 0 and the project file exists with size 0 — an empty file — yet no
check fails: packaging is called and the job completes. -/
theorem empty_project_file_still_packaged :
    run_realityscan ⟨.started (.completed 0), ⟨true, 0, true, 1⟩, some "result.zip"⟩ =
      { updates := [⟨"processing", 10, "Preparing RealityScan..."⟩,
          ⟨"processing", 20, "Running feature detection..."⟩,
          ⟨"processing", 40, "Aligning images..."⟩,
          ⟨"processing", 80, "Creating output package..."⟩,
          ⟨"completed", 100, "Processing complete - 3D mesh ready for download"⟩],
        killed := false, packaging_called := true, result_path := some "result.zip" } := by
  rfl

/-!
Part 5 embeds the submission endpoint `start_processing`
(`windows_server_api.py` lines 397-457) and settles the `update_job_status`
frame claim.  The endpoint reads `project_id` from the request JSON
(`data.get` yields `None` when absent; Python's `if not project_id` also
rejects the empty string), checks `os.path.exists(images_folder)`, filters
the folder's entries by `f.suffix.lower() in CONFIG['ALLOWED_EXTENSIONS']`,
and only then creates the `queued` job record, starts the supervisor
thread, and returns the job id at once.  Directory entries are represented
by their `Path.suffix` strings. -/

/-- `CONFIG['ALLOWED_EXTENSIONS']` (line 43). -/
def ALLOWED_EXTENSIONS : List String := [".jpg", ".jpeg", ".png", ".JPG", ".JPEG", ".PNG"]

/-- Python's `str.lower()`, over the character list so that it reduces in
the kernel. -/
def pyLower (s : String) : String := ⟨s.data.map Char.toLower⟩

/-- The filter of line 418: `f.suffix.lower() in CONFIG['ALLOWED_EXTENSIONS']`,
counting the valid image files. -/
def valid_image_count (suffixes : List String) : Nat :=
  (suffixes.filter (fun ext => ALLOWED_EXTENSIONS.contains (pyLower ext))).length

/-- What `start_processing` sees of one request: the parsed JSON fields and
the filesystem view of the project's images folder. -/
structure StartRequestEnv where
  project_id : Option String
  quality : String
  images_folder_exists : Bool
  image_file_suffixes : List String
deriving DecidableEq, Repr

/-- The three response shapes of `start_processing`. -/
inductive StartResponse where
  | badRequest (error : String)
  | notFound (error : String)
  | ok (job_id : String) (image_count : Nat)
deriving DecidableEq, Repr

/-- The HTTP status code attached to each response shape (400 / 404 / 200). -/
def httpStatusCode : StartResponse → Nat
  | .badRequest _ => 400
  | .notFound _ => 404
  | .ok _ _ => 200

/-- `start_processing` (lines 397-457): validation, then job creation
(`jobs[job_id] = {...}` modelled as a cons with the fresh uuid key) and
immediate return of the job id; the supervisor thread is started
asynchronously and has made no update yet at return time. -/
def start_processing (jobs : JobsMap) (req : StartRequestEnv) (new_job_id : String)
    (now : Nat) : StartResponse × JobsMap :=
  match req.project_id with
  | none => (.badRequest "Missing project_id", jobs)
  | some project_id =>
    if project_id == "" then (.badRequest "Missing project_id", jobs)
    else if req.images_folder_exists = false then
      (.notFound "Images not found for project", jobs)
    else
      let n := valid_image_count req.image_file_suffixes
      if n = 0 then (.badRequest "No valid images found", jobs)
      else
        (.ok new_job_id n,
          (new_job_id,
            { job_id := new_job_id, project_id := project_id, status := "queued",
              progress := 0, message := "Job queued", image_count := n,
              quality := req.quality, created_at := now, updated_at := now,
              result_path := none }) :: jobs)

/-- C6: with a present, non-empty `project_id`: a missing images folder
yields the 404 `NotFound` response and leaves the jobs map untouched; an
existing folder with zero allowed-extension files yields the 400
`InvalidInput` response and leaves the jobs map untouched; and on success
the job id is returned with a fresh record whose status is still `queued`
(supervision has not run at return time). -/
theorem start_processing_validation :
    ∀ (jobs : JobsMap) (req : StartRequestEnv) (new_job_id : String) (now : Nat)
      (pid : String),
      req.project_id = some pid → pid ≠ "" →
      ((req.images_folder_exists = false →
          start_processing jobs req new_job_id now =
            (.notFound "Images not found for project", jobs) ∧
          httpStatusCode (start_processing jobs req new_job_id now).1 = 404) ∧
        (req.images_folder_exists = true →
          valid_image_count req.image_file_suffixes = 0 →
          start_processing jobs req new_job_id now =
            (.badRequest "No valid images found", jobs) ∧
          httpStatusCode (start_processing jobs req new_job_id now).1 = 400) ∧
        (req.images_folder_exists = true →
          0 < valid_image_count req.image_file_suffixes →
          (start_processing jobs req new_job_id now).1 =
            .ok new_job_id (valid_image_count req.image_file_suffixes) ∧
          List.lookup new_job_id (start_processing jobs req new_job_id now).2 =
            some { job_id := new_job_id, project_id := pid, status := "queued",
                   progress := 0, message := "Job queued",
                   image_count := valid_image_count req.image_file_suffixes,
                   quality := req.quality, created_at := now, updated_at := now,
                   result_path := none })) := by
  intro jobs req new_job_id now pid hpid hne
  have hbeq : (pid == "") = false := beq_eq_false_iff_ne.mpr hne
  refine ⟨?_, ?_, ?_⟩
  · intro hnofolder
    constructor
    · simp [start_processing, hpid, hbeq, hnofolder]
    · simp [start_processing, hpid, hbeq, hnofolder, httpStatusCode]
  · intro hfolder hzero
    constructor
    · simp [start_processing, hpid, hbeq, hfolder, hzero]
    · simp [start_processing, hpid, hbeq, hfolder, hzero, httpStatusCode]
  · intro hfolder hpos
    have hnz : ¬ valid_image_count req.image_file_suffixes = 0 := by omega
    constructor
    · simp [start_processing, hpid, hbeq, hfolder, hnz]
    · simp [start_processing, hpid, hbeq, hfolder, hnz, List.lookup]

/-- Witness for C6: the 404 branch, the 400 branch and the success branch
at concrete requests. -/
theorem start_processing_validation_witness :
    start_processing [] ⟨some "proj-1", "high", false, []⟩ "job-1" 5 =
      (.notFound "Images not found for project", []) ∧
    start_processing [] ⟨some "proj-1", "high", true, [".txt"]⟩ "job-1" 5 =
      (.badRequest "No valid images found", []) ∧
    (start_processing [] ⟨some "proj-1", "high", true, [".JPG", ".txt", ".png"]⟩ "job-1" 5).1 =
      .ok "job-1" 2 := by
  refine ⟨?_, ?_, ?_⟩
  · exact ((start_processing_validation [] ⟨some "proj-1", "high", false, []⟩ "job-1" 5
      "proj-1" rfl (by decide)).1 rfl).1
  · exact ((start_processing_validation [] ⟨some "proj-1", "high", true, [".txt"]⟩ "job-1" 5
      "proj-1" rfl (by decide)).2.1 rfl (by decide)).1
  · have h := ((start_processing_validation []
      ⟨some "proj-1", "high", true, [".JPG", ".txt", ".png"]⟩ "job-1" 5
      "proj-1" rfl (by decide)).2.2 rfl (by decide)).1
    rw [h]
    decide

/-- C10: `update_job_status` with a `job_id` absent from the jobs map is a
silent no-op: the guard `if job_id in jobs` fails, so the call raises
nothing, creates no record, and returns the map with every existing record
unchanged. -/
theorem update_job_status_unknown_id_noop :
    ∀ (jobs : JobsMap) (job_id status message : String) (progress now : Nat),
      List.lookup job_id jobs = none →
      update_job_status jobs job_id status progress message now = jobs := by
  intro jobs job_id status message progress now h
  simp [update_job_status, h]

/-- Witness for C10 on a concrete one-job map and an unknown id. -/
theorem update_job_status_unknown_id_noop_witness :
    update_job_status [("job-1", sampleJob)] "job-2" "failed" 0 "boom" 9 =
      [("job-1", sampleJob)] :=
  update_job_status_unknown_id_noop [("job-1", sampleJob)] "job-2" "failed" "boom" 0 9
    (by decide)
